import Mathlib

/-!
Verification development for the keto-sell-tracker point-of-sale dashboard.

The embedding models the SalesTracker component (products, sales with
nested sale items, the transient cart, metric aggregation, the sale
submission workflow, fulfillment marking) and the database-side stock
trigger from the migrations. Money and quantities are integer-valued in
this application (prices such as 6900, costs such as 4050, integer
quantities), so numbers are embedded as Int.
-/

namespace KetoTracker

/-- A row of the products table (interface Product). -/
structure Product where
  id : String
  name : String
  price : Int
  cost : Int
  stock : Int
deriving Repr, DecidableEq

/-- A row of the sale_items table (interface SaleItem). -/
structure SaleItem where
  id : String
  sale_id : String
  product_id : String
  quantity : Int
  unit_price : Int
  subtotal : Int
deriving Repr, DecidableEq

/-- The status column of a sale: 'not_fulfilled' | 'fulfilled'. -/
inductive SaleStatus where
  | not_fulfilled
  | fulfilled
deriving Repr, DecidableEq

/-- A row of the sales table together with its nested sale items
(interface Sale). -/
structure Sale where
  id : String
  customer_name : String
  status : SaleStatus
  total_amount : Int
  sale_date : String
  sale_items : List SaleItem
deriving Repr, DecidableEq

/-- A transient cart entry (interface CartItem). -/
structure CartItem where
  product_id : String
  quantity : Int
deriving Repr, DecidableEq

/-- The metrics record (interface Metrics). -/
structure Metrics where
  totalSales : Int
  totalRevenue : Int
  totalProfit : Int
  totalUnits : Int
deriving Repr, DecidableEq

/-- Body of the inner forEach of calculateMetrics: for one sale item,
add its quantity to the running totalUnits and, when the referenced
product is found, add (unit_price - cost) * quantity to the running
totalProfit. The accumulator is (totalUnits, totalProfit). -/
def saleItemsStep (productsData : List Product) (acc : Int × Int)
    (item : SaleItem) : Int × Int :=
  let totalUnits := acc.1 + item.quantity
  match productsData.find? (fun p => p.id == item.product_id) with
  | some product => (totalUnits, acc.2 + (item.unit_price - product.cost) * item.quantity)
  | none => (totalUnits, acc.2)

/-- Body of the outer forEach of calculateMetrics: fold the inner step
over one sale's items. -/
def saleStep (productsData : List Product) (acc : Int × Int)
    (sale : Sale) : Int × Int :=
  sale.sale_items.foldl (saleItemsStep productsData) acc

/-- calculateMetrics from the SalesTracker component: totalSales is the
length of the sales list, totalRevenue a reduce of total_amount, and
totalUnits/totalProfit accumulate over the nested forEach loops. -/
def calculateMetrics (salesData : List Sale) (productsData : List Product) : Metrics :=
  let totalSales : Int := salesData.length
  let totalRevenue : Int := salesData.foldl (fun sum sale => sum + sale.total_amount) 0
  let up : Int × Int := salesData.foldl (saleStep productsData) (0, 0)
  { totalSales := totalSales
    totalRevenue := totalRevenue
    totalProfit := up.2
    totalUnits := up.1 }

/-- Specification-side profit contribution of one line item: quantity
times (unit price minus the referenced product's current cost), and zero
when the product is absent from the product list. -/
def itemProfit (productsData : List Product) (item : SaleItem) : Int :=
  match productsData.find? (fun p => p.id == item.product_id) with
  | some product => item.quantity * (item.unit_price - product.cost)
  | none => 0

/-- Specification-side unit count of a sale: the sum of its items' quantities. -/
def saleUnits (sale : Sale) : Int :=
  (sale.sale_items.map SaleItem.quantity).sum

/-- Specification-side profit of a sale against a product list. -/
def saleProfit (productsData : List Product) (sale : Sale) : Int :=
  (sale.sale_items.map (itemProfit productsData)).sum

theorem foldl_add_eq {α : Type} (f : α → Int) :
    ∀ (l : List α) (a : Int), l.foldl (fun s x => s + f x) a = a + (l.map f).sum := by
  intro l
  induction l with
  | nil => simp
  | cons x xs ih =>
    intro a
    simp only [List.foldl_cons, List.map_cons, List.sum_cons, ih]
    ring

theorem saleItemsStep_foldl (P : List Product) :
    ∀ (items : List SaleItem) (a : Int × Int),
      (items.foldl (saleItemsStep P) a).1 = a.1 + (items.map SaleItem.quantity).sum ∧
      (items.foldl (saleItemsStep P) a).2 = a.2 + (items.map (itemProfit P)).sum := by
  intro items
  induction items with
  | nil => simp
  | cons x xs ih =>
    intro a
    simp only [List.foldl_cons, List.map_cons, List.sum_cons]
    rcases ih (saleItemsStep P a x) with ⟨h1, h2⟩
    constructor
    · rw [h1]
      simp only [saleItemsStep]
      cases h : P.find? (fun p => p.id == x.product_id) <;> (simp; try ring)
    · rw [h2]
      simp only [saleItemsStep, itemProfit]
      cases h : P.find? (fun p => p.id == x.product_id) <;> (simp [h]; try ring)

theorem saleStep_foldl (P : List Product) :
    ∀ (l : List Sale) (a : Int × Int),
      (l.foldl (saleStep P) a).1 = a.1 + (l.map saleUnits).sum ∧
      (l.foldl (saleStep P) a).2 = a.2 + (l.map (saleProfit P)).sum := by
  intro l
  induction l with
  | nil => simp
  | cons x xs ih =>
    intro a
    simp only [List.foldl_cons, List.map_cons, List.sum_cons]
    rcases ih (saleStep P a x) with ⟨h1, h2⟩
    rcases saleItemsStep_foldl P x.sale_items a with ⟨g1, g2⟩
    constructor
    · rw [h1]
      simp only [saleStep, g1, saleUnits]
      ring
    · rw [h2]
      simp only [saleStep, g2, saleProfit]
      ring

/-- Outcome of addToCart: a toast error leaves the cart unchanged; a silent
return happens when the selected product is not found; on success the cart
is replaced by the new cart (and the selection fields are cleared). -/
inductive AddToCartResult where
  | rejected (msg : String) (cart : List CartItem)
  | silent (cart : List CartItem)
  | added (cart : List CartItem)
deriving Repr, DecidableEq

/-- The cart after an addToCart call, whatever its outcome. -/
def AddToCartResult.cart : AddToCartResult → List CartItem
  | .rejected _ c => c
  | .silent c => c
  | .added c => c

/-- addToCart from the SalesTracker component. The quantity field is the
parsed integer (parseInt of the quantity input); the first guard rejects an
empty product selection, the second silently returns when the selected id
matches no product, the third rejects a non-positive or stock-exceeding
quantity; otherwise an existing entry for the product is merged, or a new
entry appended. -/
def addToCart (products : List Product) (cart : List CartItem)
    (selectedProduct : String) (qty : Int) : AddToCartResult :=
  if selectedProduct = "" then
    .rejected "Please select a product and enter quantity" cart
  else
    match products.find? (fun p => p.id == selectedProduct) with
    | none => .silent cart
    | some product =>
      if qty ≤ 0 ∨ qty > product.stock then
        .rejected ("Invalid quantity. Available stock: " ++ toString product.stock) cart
      else if (cart.find? (fun item => item.product_id == selectedProduct)).isSome then
        .added (cart.map (fun item =>
          if item.product_id == selectedProduct then
            { item with quantity := item.quantity + qty }
          else item))
      else
        .added (cart ++ [{ product_id := selectedProduct, quantity := qty }])

/-- removeFromCart from the SalesTracker component: filter out every entry
with the given product id. -/
def removeFromCart (cart : List CartItem) (productId : String) : List CartItem :=
  cart.filter (fun item => item.product_id != productId)

/-- getCartTotal from the SalesTracker component: reduce over the cart,
adding the product's current price times the entry quantity, or zero when
the product is not found. -/
def getCartTotal (products : List Product) (cart : List CartItem) : Int :=
  cart.foldl (fun total item =>
    total + (match products.find? (fun p => p.id == item.product_id) with
             | some product => product.price * item.quantity
             | none => 0)) 0

/-- C1: calculateMetrics computes totalSales = |S|, totalRevenue = the sum
of each sale's total_amount, totalUnits = the sum of quantity over all line
items of all sales, and totalProfit = the sum over resolvable line items of
quantity times (unit_price minus the referenced product's current cost); a
line item whose product_id is absent from the product list contributes zero
to totalProfit while still contributing its quantity to totalUnits (and its
sale's total_amount to totalRevenue). -/
theorem calculateMetrics_correct (P : List Product) (S : List Sale) :
    (calculateMetrics S P).totalSales = S.length ∧
    (calculateMetrics S P).totalRevenue = (S.map Sale.total_amount).sum ∧
    (calculateMetrics S P).totalUnits = (S.map saleUnits).sum ∧
    (calculateMetrics S P).totalProfit = (S.map (saleProfit P)).sum ∧
    (∀ item : SaleItem,
      P.find? (fun p => p.id == item.product_id) = none → itemProfit P item = 0) ∧
    (∀ item : SaleItem, ∀ product : Product,
      P.find? (fun p => p.id == item.product_id) = some product →
        itemProfit P item = item.quantity * (item.unit_price - product.cost)) := by
  rcases saleStep_foldl P S (0, 0) with ⟨hu, hp⟩
  refine ⟨?_, ?_, ?_, ?_, ?_, ?_⟩
  · simp [calculateMetrics]
  · simp [calculateMetrics, foldl_add_eq Sale.total_amount S 0]
  · simp only [calculateMetrics]
    rw [hu]
    simp
  · simp only [calculateMetrics]
    rw [hp]
    simp
  · intro item h
    simp [itemProfit, h]
  · intro item product h
    simp [itemProfit, h]

/-- Witness for C1 at concrete data: two products, two sales (one of whose
items references a deleted product). -/
theorem calculateMetrics_correct_witness :
    (calculateMetrics
      [{ id := "s1", customer_name := "Ana", status := SaleStatus.not_fulfilled,
         total_amount := 20700, sale_date := "2025-08-20",
         sale_items :=
           [{ id := "i1", sale_id := "s1", product_id := "pA", quantity := 2,
              unit_price := 6900, subtotal := 13800 },
            { id := "i2", sale_id := "s1", product_id := "ghost", quantity := 1,
              unit_price := 6900, subtotal := 6900 }] }]
      [{ id := "pA", name := "Keto Molde", price := 6900, cost := 4050, stock := 20 },
       { id := "pB", name := "Keto Redondito", price := 6900, cost := 4050, stock := 20 }]).totalUnits
      = 3 := by
  have h := calculateMetrics_correct
    [{ id := "pA", name := "Keto Molde", price := 6900, cost := 4050, stock := 20 },
     { id := "pB", name := "Keto Redondito", price := 6900, cost := 4050, stock := 20 }]
    [{ id := "s1", customer_name := "Ana", status := SaleStatus.not_fulfilled,
       total_amount := 20700, sale_date := "2025-08-20",
       sale_items :=
         [{ id := "i1", sale_id := "s1", product_id := "pA", quantity := 2,
            unit_price := 6900, subtotal := 13800 },
          { id := "i2", sale_id := "s1", product_id := "ghost", quantity := 1,
            unit_price := 6900, subtotal := 6900 }] }]
  rw [h.2.2.1]
  decide

/-- C3: for a selected product present in the product list, a quantity q
with 0 < q ≤ stock is accepted: a fresh entry is appended when the cart has
none for that product, and otherwise the existing entry's quantity n is
replaced by n + q with no duplicate entry created; q ≤ 0 or q > stock is
rejected with a user-facing message and an unchanged cart; and adding 3
then 2 units of the product to an empty cart yields one entry of quantity
5 when its stock is at least 5. -/
theorem addToCart_correct (products : List Product) (cart : List CartItem)
    (pid : String) (q : Int) (prod : Product)
    (hpid : pid ≠ "")
    (hfind : products.find? (fun p => p.id == pid) = some prod) :
    (0 < q → q ≤ prod.stock →
      (cart.find? (fun item => item.product_id == pid) = none →
        addToCart products cart pid q =
          .added (cart ++ [{ product_id := pid, quantity := q }])) ∧
      ((cart.find? (fun item => item.product_id == pid)).isSome →
        ∃ newCart, addToCart products cart pid q = .added newCart ∧
          newCart = cart.map (fun item =>
            if item.product_id = pid then
              { item with quantity := item.quantity + q }
            else item) ∧
          newCart.length = cart.length)) ∧
    (q ≤ 0 ∨ q > prod.stock →
      addToCart products cart pid q =
        .rejected ("Invalid quantity. Available stock: " ++ toString prod.stock) cart) ∧
    (5 ≤ prod.stock →
      (addToCart products ((addToCart products [] pid 3).cart) pid 2).cart =
        [{ product_id := pid, quantity := 5 }]) := by
  refine ⟨?_, ?_, ?_⟩
  · intro hq hstock
    have hguard : ¬(q ≤ 0 ∨ q > prod.stock) := by omega
    constructor
    · intro hnone
      simp only [addToCart, if_neg hpid, hfind, if_neg hguard, hnone,
        Option.isSome_none, Bool.false_eq_true, if_false]
    · intro hsome
      refine ⟨cart.map (fun item =>
          if item.product_id == pid then
            { item with quantity := item.quantity + q }
          else item), ?_, ?_, ?_⟩
      · simp only [addToCart, if_neg hpid, hfind, if_neg hguard, hsome, if_true]
      · apply List.map_congr_left
        intro item _
        by_cases h : item.product_id = pid
        · simp [h]
        · simp [h]
      · simp
  · intro hbad
    simp only [addToCart, if_neg hpid, hfind, if_pos hbad]
  · intro hstock
    have h3 : addToCart products [] pid 3 =
        .added [{ product_id := pid, quantity := 3 }] := by
      have hguard : ¬((3 : Int) ≤ 0 ∨ (3 : Int) > prod.stock) := by omega
      simp only [addToCart, if_neg hpid, hfind, if_neg hguard, List.find?_nil,
        Option.isSome_none, Bool.false_eq_true, if_false, List.nil_append]
    rw [h3]
    have hguard2 : ¬((2 : Int) ≤ 0 ∨ (2 : Int) > prod.stock) := by omega
    simp only [AddToCartResult.cart, addToCart, if_neg hpid, hfind, if_neg hguard2]
    simp

/-- Witness for C3: a concrete product of stock 20 with an empty cart. -/
theorem addToCart_correct_witness :
    addToCart [{ id := "pA", name := "Keto Molde", price := 6900, cost := 4050, stock := 20 }]
        [] "pA" 3 = .added [{ product_id := "pA", quantity := 3 }] := by
  have h := addToCart_correct
    [{ id := "pA", name := "Keto Molde", price := 6900, cost := 4050, stock := 20 }]
    [] "pA" 3
    { id := "pA", name := "Keto Molde", price := 6900, cost := 4050, stock := 20 }
    (by decide) (by decide)
  have h2 := (h.1 (by decide) (by decide)).1 (by decide)
  simpa using h2

/-- A user action on the transient cart: an addToCart click (against the
product snapshot current at that moment) or a removeFromCart click. -/
inductive CartOp where
  | add (products : List Product) (selectedProduct : String) (qty : Int)
  | remove (productId : String)

/-- Apply one cart action to the cart state. -/
def applyCartOp (cart : List CartItem) : CartOp → List CartItem
  | .add products sel qty => (addToCart products cart sel qty).cart
  | .remove pid => removeFromCart cart pid

/-- Run a sequence of cart actions starting from the empty cart. -/
def runCartOps (ops : List CartOp) : List CartItem :=
  ops.foldl applyCartOp []

theorem addToCart_keys_nodup (products : List Product) (cart : List CartItem)
    (sel : String) (qty : Int)
    (h : (cart.map CartItem.product_id).Nodup) :
    (((addToCart products cart sel qty).cart).map CartItem.product_id).Nodup := by
  unfold addToCart
  split
  · exact h
  · split
    · exact h
    · split
      · exact h
      · split
        · simp only [AddToCartResult.cart, List.map_map]
          have : (CartItem.product_id ∘ fun item =>
              if (item.product_id == sel) = true then
                { item with quantity := item.quantity + qty }
              else item) = CartItem.product_id := by
            funext item
            by_cases hs : item.product_id = sel <;> simp [hs]
          rw [this]
          exact h
        · rename_i hguard hnotfound
          simp only [AddToCartResult.cart, List.map_append, List.map_cons, List.map_nil]
          rw [List.nodup_append]
          refine ⟨h, List.nodup_singleton sel, ?_⟩
          intro a ha hb
          simp only [List.mem_singleton] at hb
          simp only [List.mem_map] at ha
          rcases ha with ⟨item, hitem, hid⟩
          have hfnone : cart.find? (fun item => item.product_id == sel) = none := by
            cases hf : cart.find? (fun item => item.product_id == sel) with
            | none => rfl
            | some c => rw [hf] at hnotfound; simp at hnotfound
          rw [List.find?_eq_none] at hfnone
          have hne := hfnone item hitem
          simp only [beq_iff_eq] at hne
          exact hne (by rw [hid, hb])

theorem removeFromCart_keys_nodup (cart : List CartItem) (pid : String)
    (h : (cart.map CartItem.product_id).Nodup) :
    ((removeFromCart cart pid).map CartItem.product_id).Nodup := by
  have hsub : (removeFromCart cart pid).Sublist cart := List.filter_sublist cart
  exact (hsub.map CartItem.product_id).nodup h

theorem applyCartOp_keys_nodup (cart : List CartItem) (op : CartOp)
    (h : (cart.map CartItem.product_id).Nodup) :
    ((applyCartOp cart op).map CartItem.product_id).Nodup := by
  cases op with
  | add products sel qty => exact addToCart_keys_nodup products cart sel qty h
  | remove pid => exact removeFromCart_keys_nodup cart pid h

theorem foldl_cartOps_keys_nodup :
    ∀ (ops : List CartOp) (cart : List CartItem),
      (cart.map CartItem.product_id).Nodup →
      ((ops.foldl applyCartOp cart).map CartItem.product_id).Nodup := by
  intro ops
  induction ops with
  | nil => intro cart h; simpa using h
  | cons op ops ih =>
    intro cart h
    exact ih (applyCartOp cart op) (applyCartOp_keys_nodup cart op h)

/-- C10: every cart state reachable from the empty cart through addToCart
and removeFromCart has at most one entry per product_id; removeFromCart
removes every entry with the given product_id and leaves the cart unchanged
when no such entry exists. -/
theorem cart_invariant (ops : List CartOp) (cart : List CartItem) (pid : String) :
    ((runCartOps ops).map CartItem.product_id).Nodup ∧
    (∀ e ∈ removeFromCart cart pid, e.product_id ≠ pid) ∧
    ((∀ e ∈ cart, e.product_id ≠ pid) → removeFromCart cart pid = cart) := by
  refine ⟨foldl_cartOps_keys_nodup ops [] (by simp), ?_, ?_⟩
  · intro e he
    simp only [removeFromCart, List.mem_filter, bne_iff_ne, ne_eq] at he
    exact he.2
  · intro hall
    simp only [removeFromCart]
    rw [List.filter_eq_self]
    intro e he
    simpa using hall e he

/-- Witness for C10: one add of 3 units and a remove of an absent id. -/
theorem cart_invariant_witness :
    ((runCartOps
        [CartOp.add [{ id := "pA", name := "Keto Molde", price := 6900, cost := 4050, stock := 20 }] "pA" 3]).map
      CartItem.product_id).Nodup ∧
    removeFromCart [{ product_id := "pA", quantity := 3 }] "zz" =
      [{ product_id := "pA", quantity := 3 }] := by
  have h := cart_invariant
    [CartOp.add [{ id := "pA", name := "Keto Molde", price := 6900, cost := 4050, stock := 20 }] "pA" 3]
    [{ product_id := "pA", quantity := 3 }] "zz"
  exact ⟨h.1, h.2.2 (by decide)⟩

/-- Strip leading and trailing whitespace from a character list. -/
def trimChars (s : List Char) : List Char :=
  ((s.dropWhile Char.isWhitespace).reverse.dropWhile Char.isWhitespace).reverse

/-- Model of the JavaScript String.prototype.trim() used on the customer
name: remove leading and trailing whitespace. -/
def jsTrim (s : String) : String := String.mk (trimChars s.data)

/-- The row sent to the sales table in step 1 of handleSaleSubmit. -/
structure SaleInsert where
  customer_name : String
  total_amount : Int
  status : SaleStatus
deriving Repr, DecidableEq

/-- A row sent to the sale_items table in step 2 of handleSaleSubmit. -/
structure SaleItemInsert where
  sale_id : String
  product_id : String
  quantity : Int
  unit_price : Int
  subtotal : Int
deriving Repr, DecidableEq

/-- The sale_items rows built from the cart in handleSaleSubmit: one row
per cart entry, with unit_price the found product's price (0 when absent,
the product?.price || 0 fallback) and subtotal that price times quantity. -/
def mkSaleItems (products : List Product) (cart : List CartItem)
    (saleId : String) : List SaleItemInsert :=
  cart.map (fun item =>
    let price := match products.find? (fun p => p.id == item.product_id) with
                 | some product => product.price
                 | none => 0
    { sale_id := saleId, product_id := item.product_id, quantity := item.quantity,
      unit_price := price, subtotal := price * item.quantity })

/-- Observable outcome of one handleSaleSubmit call: which rows were sent
to the data service (none when the corresponding insert was never
attempted), the toast error if any, whether the success path ran, and the
customerName and cart state afterwards. -/
structure SubmitOutcome where
  saleAttempt : Option SaleInsert
  itemsAttempt : Option (List SaleItemInsert)
  errorMsg : Option String
  success : Bool
  customerName : String
  cart : List CartItem
deriving Repr, DecidableEq

/-- handleSaleSubmit from the SalesTracker component. The two data-service
calls are modelled by oracle arguments: saleResp is the result of the sales
insert (the generated sale id, or an error message) and itemsResp the
result of the sale_items insert (none = success). Validation guards run
before either insert; a thrown error is caught and surfaced by toast; the
cart and customer name are reset only on the full success path. -/
def handleSaleSubmit (products : List Product) (customerName : String)
    (cart : List CartItem) (saleResp : Except String String)
    (itemsResp : Option String) : SubmitOutcome :=
  if jsTrim customerName = "" then
    { saleAttempt := none, itemsAttempt := none,
      errorMsg := some "Please enter customer name", success := false,
      customerName := customerName, cart := cart }
  else if cart.length = 0 then
    { saleAttempt := none, itemsAttempt := none,
      errorMsg := some "Please add items to cart", success := false,
      customerName := customerName, cart := cart }
  else
    let saleRow : SaleInsert :=
      { customer_name := jsTrim customerName,
        total_amount := getCartTotal products cart,
        status := SaleStatus.not_fulfilled }
    match saleResp with
    | .error msg =>
      { saleAttempt := some saleRow, itemsAttempt := none,
        errorMsg := some msg, success := false,
        customerName := customerName, cart := cart }
    | .ok saleId =>
      let saleItems := mkSaleItems products cart saleId
      match itemsResp with
      | some msg =>
        { saleAttempt := some saleRow, itemsAttempt := some saleItems,
          errorMsg := some msg, success := false,
          customerName := customerName, cart := cart }
      | none =>
        { saleAttempt := some saleRow, itemsAttempt := some saleItems,
          errorMsg := none, success := true,
          customerName := "", cart := [] }

/-- Specification-side current price of a product id: the found product's
price, 0 when the id resolves to no product. -/
def productPrice (products : List Product) (pid : String) : Int :=
  match products.find? (fun p => p.id == pid) with
  | some p => p.price
  | none => 0

theorem mkSaleItems_eq_map (products : List Product) (cart : List CartItem)
    (saleId : String) :
    mkSaleItems products cart saleId = cart.map (fun item =>
      { sale_id := saleId, product_id := item.product_id,
        quantity := item.quantity,
        unit_price := productPrice products item.product_id,
        subtotal := productPrice products item.product_id * item.quantity }) := by
  unfold mkSaleItems productPrice
  apply List.map_congr_left
  intro item _
  cases h : products.find? (fun p => p.id == item.product_id) <;> simp [h]

theorem getCartTotal_eq_sum (products : List Product) (cart : List CartItem) :
    getCartTotal products cart =
      (cart.map (fun e => productPrice products e.product_id * e.quantity)).sum := by
  have hf : (fun (total : Int) (item : CartItem) =>
      total + (match products.find? (fun p => p.id == item.product_id) with
               | some product => product.price * item.quantity
               | none => 0)) =
      (fun (total : Int) (item : CartItem) =>
        total + productPrice products item.product_id * item.quantity) := by
    funext total item
    unfold productPrice
    cases h : products.find? (fun p => p.id == item.product_id) <;> simp
  unfold getCartTotal
  rw [hf]
  rw [foldl_add_eq (fun (e : CartItem) => productPrice products e.product_id * e.quantity) cart 0]
  simp

/-- C2: with a non-empty trimmed customer name, a non-empty cart, and both
inserts succeeding, handleSaleSubmit sends exactly one sale row with
status not_fulfilled and total_amount = the cart total, and one sale_items
row per cart entry carrying the generated sale id, the entry's product_id
and quantity, unit_price = the product's current price, and subtotal =
unit_price times quantity. -/
theorem handleSaleSubmit_success (products : List Product) (customerName : String)
    (cart : List CartItem) (saleId : String)
    (hname : jsTrim customerName ≠ "") (hcart : cart ≠ []) :
    (handleSaleSubmit products customerName cart (Except.ok saleId) none).success = true ∧
    (handleSaleSubmit products customerName cart (Except.ok saleId) none).saleAttempt =
      some { customer_name := jsTrim customerName,
             total_amount := getCartTotal products cart,
             status := SaleStatus.not_fulfilled } ∧
    (handleSaleSubmit products customerName cart (Except.ok saleId) none).itemsAttempt =
      some (cart.map (fun item =>
        { sale_id := saleId, product_id := item.product_id,
          quantity := item.quantity,
          unit_price := productPrice products item.product_id,
          subtotal := productPrice products item.product_id * item.quantity })) := by
  have hlen : ¬cart.length = 0 := by
    simpa [List.length_eq_zero] using hcart
  refine ⟨?_, ?_, ?_⟩ <;>
    simp [handleSaleSubmit, hname, hlen, mkSaleItems_eq_map]

/-- Witness for C2: the spec's concrete example, two products priced 6900,
cart of 2 units of the first and 1 of the second, yielding total_amount
20700 and line-item subtotals 13800 and 6900. -/
theorem handleSaleSubmit_success_witness :
    (handleSaleSubmit
        [{ id := "pA", name := "Keto Molde", price := 6900, cost := 4050, stock := 20 },
         { id := "pB", name := "Keto Redondito", price := 6900, cost := 4050, stock := 20 }]
        "Cliente" [{ product_id := "pA", quantity := 2 }, { product_id := "pB", quantity := 1 }]
        (Except.ok "s1") none).saleAttempt =
      some { customer_name := "Cliente", total_amount := 20700,
             status := SaleStatus.not_fulfilled } ∧
    (handleSaleSubmit
        [{ id := "pA", name := "Keto Molde", price := 6900, cost := 4050, stock := 20 },
         { id := "pB", name := "Keto Redondito", price := 6900, cost := 4050, stock := 20 }]
        "Cliente" [{ product_id := "pA", quantity := 2 }, { product_id := "pB", quantity := 1 }]
        (Except.ok "s1") none).itemsAttempt =
      some [{ sale_id := "s1", product_id := "pA", quantity := 2,
              unit_price := 6900, subtotal := 13800 },
            { sale_id := "s1", product_id := "pB", quantity := 1,
              unit_price := 6900, subtotal := 6900 }] := by
  have h := handleSaleSubmit_success
    [{ id := "pA", name := "Keto Molde", price := 6900, cost := 4050, stock := 20 },
     { id := "pB", name := "Keto Redondito", price := 6900, cost := 4050, stock := 20 }]
    "Cliente" [{ product_id := "pA", quantity := 2 }, { product_id := "pB", quantity := 1 }]
    "s1" (by decide) (by decide)
  refine ⟨?_, ?_⟩
  · rw [h.2.1]
    decide
  · rw [h.2.2]
    decide

/-- C5: an empty trimmed customer name or an empty cart is rejected before
either insert: an error toast is surfaced, no sale or sale_items row is
sent whatever the data service would have answered, and the customer name
and cart are left unchanged. -/
theorem handleSaleSubmit_validation (products : List Product) (customerName : String)
    (cart : List CartItem) (saleResp : Except String String) (itemsResp : Option String)
    (h : jsTrim customerName = "" ∨ cart = []) :
    (handleSaleSubmit products customerName cart saleResp itemsResp).saleAttempt = none ∧
    (handleSaleSubmit products customerName cart saleResp itemsResp).itemsAttempt = none ∧
    (handleSaleSubmit products customerName cart saleResp itemsResp).errorMsg.isSome ∧
    (handleSaleSubmit products customerName cart saleResp itemsResp).success = false ∧
    (handleSaleSubmit products customerName cart saleResp itemsResp).customerName = customerName ∧
    (handleSaleSubmit products customerName cart saleResp itemsResp).cart = cart := by
  rcases h with h | h
  · simp [handleSaleSubmit, h]
  · subst h
    by_cases ht : jsTrim customerName = "" <;> simp [handleSaleSubmit, ht]

/-- Witness for C5: submitting with a whitespace-only customer name. -/
theorem handleSaleSubmit_validation_witness :
    (handleSaleSubmit
        [{ id := "pA", name := "Keto Molde", price := 6900, cost := 4050, stock := 20 }]
        "   " [{ product_id := "pA", quantity := 2 }]
        (Except.ok "s1") none).saleAttempt = none := by
  have h := handleSaleSubmit_validation
    [{ id := "pA", name := "Keto Molde", price := 6900, cost := 4050, stock := 20 }]
    "   " [{ product_id := "pA", quantity := 2 }]
    (Except.ok "s1") none (Or.inl (by decide))
  exact h.1

/-- C6: when the preconditions hold, a failing sale insert or a failing
sale_items insert aborts the workflow with the failure surfaced and the
cart and customer name exactly as before; the cart and customer name are
cleared iff both inserts succeed. -/
theorem handleSaleSubmit_failure_frame (products : List Product)
    (customerName : String) (cart : List CartItem)
    (hname : jsTrim customerName ≠ "") (hcart : cart ≠ []) :
    (∀ msg : String, ∀ itemsResp : Option String,
      (handleSaleSubmit products customerName cart (Except.error msg) itemsResp).cart = cart ∧
      (handleSaleSubmit products customerName cart (Except.error msg) itemsResp).customerName = customerName ∧
      (handleSaleSubmit products customerName cart (Except.error msg) itemsResp).errorMsg = some msg ∧
      (handleSaleSubmit products customerName cart (Except.error msg) itemsResp).success = false ∧
      (handleSaleSubmit products customerName cart (Except.error msg) itemsResp).itemsAttempt = none) ∧
    (∀ saleId msg : String,
      (handleSaleSubmit products customerName cart (Except.ok saleId) (some msg)).cart = cart ∧
      (handleSaleSubmit products customerName cart (Except.ok saleId) (some msg)).customerName = customerName ∧
      (handleSaleSubmit products customerName cart (Except.ok saleId) (some msg)).errorMsg = some msg ∧
      (handleSaleSubmit products customerName cart (Except.ok saleId) (some msg)).success = false) ∧
    (∀ saleResp : Except String String, ∀ itemsResp : Option String,
      ((handleSaleSubmit products customerName cart saleResp itemsResp).cart = [] ∧
       (handleSaleSubmit products customerName cart saleResp itemsResp).customerName = "") ↔
      ((∃ saleId, saleResp = Except.ok saleId) ∧ itemsResp = none)) := by
  have hlen : ¬cart.length = 0 := by
    simpa [List.length_eq_zero] using hcart
  refine ⟨?_, ?_, ?_⟩
  · intro msg itemsResp
    refine ⟨?_, ?_, ?_, ?_, ?_⟩ <;> simp [handleSaleSubmit, hname, hlen]
  · intro saleId msg
    refine ⟨?_, ?_, ?_, ?_⟩ <;> simp [handleSaleSubmit, hname, hlen]
  · intro saleResp itemsResp
    cases saleResp with
    | error msg => simp [handleSaleSubmit, hname, hlen, hcart]
    | ok saleId =>
      cases itemsResp with
      | none => simp [handleSaleSubmit, hname, hlen]
      | some msg => simp [handleSaleSubmit, hname, hlen, hcart]

/-- Witness for C6: a failing sale insert leaves the concrete cart in place. -/
theorem handleSaleSubmit_failure_frame_witness :
    (handleSaleSubmit
        [{ id := "pA", name := "Keto Molde", price := 6900, cost := 4050, stock := 20 }]
        "Ana" [{ product_id := "pA", quantity := 2 }]
        (Except.error "network down") none).cart = [{ product_id := "pA", quantity := 2 }] := by
  have h := handleSaleSubmit_failure_frame
    [{ id := "pA", name := "Keto Molde", price := 6900, cost := 4050, stock := 20 }]
    "Ana" [{ product_id := "pA", quantity := 2 }]
    (by decide) (by decide)
  exact (h.1 "network down" none).1

theorem sum_map_price_filter (products : List Product) :
    ∀ cart : List CartItem,
      ((cart.filter (fun e =>
          (products.find? (fun p => p.id == e.product_id)).isSome)).map
        (fun e => productPrice products e.product_id * e.quantity)).sum =
      (cart.map (fun e => productPrice products e.product_id * e.quantity)).sum := by
  intro cart
  induction cart with
  | nil => simp
  | cons e cart ih =>
    by_cases h : (products.find? (fun p => p.id == e.product_id)).isSome
    · simp only [List.filter_cons, h, if_true, List.map_cons, List.sum_cons, ih]
    · have hnone : products.find? (fun p => p.id == e.product_id) = none := by
        cases hf : products.find? (fun p => p.id == e.product_id) with
        | none => rfl
        | some p => rw [hf] at h; simp at h
      have hzero : productPrice products e.product_id = 0 := by
        simp [productPrice, hnone]
      simp [List.filter_cons, hnone, ih, hzero]

/-- C9: a cart entry whose product_id resolves to no product is priced at
zero: getCartTotal equals the total over the resolvable entries alone, and
at submission such an entry produces a sale_items row with unit_price 0
and subtotal 0 while the submission still succeeds rather than erroring. -/
theorem missing_product_priced_zero (products : List Product) (cart : List CartItem)
    (customerName : String) (saleId : String) :
    getCartTotal products cart =
      getCartTotal products (cart.filter (fun e =>
        (products.find? (fun p => p.id == e.product_id)).isSome)) ∧
    (∀ e ∈ cart, products.find? (fun p => p.id == e.product_id) = none →
      productPrice products e.product_id = 0 ∧
      ({ sale_id := saleId, product_id := e.product_id, quantity := e.quantity,
         unit_price := 0, subtotal := 0 } : SaleItemInsert) ∈
        mkSaleItems products cart saleId) ∧
    (jsTrim customerName ≠ "" → cart ≠ [] →
      (handleSaleSubmit products customerName cart (Except.ok saleId) none).success = true) := by
  refine ⟨?_, ?_, ?_⟩
  · rw [getCartTotal_eq_sum, getCartTotal_eq_sum, sum_map_price_filter]
  · intro e he hnone
    have hzero : productPrice products e.product_id = 0 := by
      simp [productPrice, hnone]
    refine ⟨hzero, ?_⟩
    rw [mkSaleItems_eq_map]
    rw [List.mem_map]
    refine ⟨e, he, ?_⟩
    rw [hzero]
    simp
  · intro hname hcart
    have hlen : ¬cart.length = 0 := by
      simpa [List.length_eq_zero] using hcart
    simp [handleSaleSubmit, hname, hlen]

/-- Witness for C9: a cart holding an entry for a deleted product id. -/
theorem missing_product_priced_zero_witness :
    ({ sale_id := "s1", product_id := "ghost", quantity := 4,
       unit_price := 0, subtotal := 0 } : SaleItemInsert) ∈
      mkSaleItems
        [{ id := "pA", name := "Keto Molde", price := 6900, cost := 4050, stock := 20 }]
        [{ product_id := "ghost", quantity := 4 }] "s1" ∧
    (handleSaleSubmit
        [{ id := "pA", name := "Keto Molde", price := 6900, cost := 4050, stock := 20 }]
        "Ana" [{ product_id := "ghost", quantity := 4 }]
        (Except.ok "s1") none).success = true := by
  have h := missing_product_priced_zero
    [{ id := "pA", name := "Keto Molde", price := 6900, cost := 4050, stock := 20 }]
    [{ product_id := "ghost", quantity := 4 }] "Ana" "s1"
  refine ⟨?_, h.2.2 (by decide) (by decide)⟩
  exact (h.2.1 { product_id := "ghost", quantity := 4 } (by decide) (by decide)).2

/-- The store-side effect of the markAsFulfilled update statement: set
status = 'fulfilled' on every sales row whose id equals saleId. -/
def fulfillSale (sales : List Sale) (saleId : String) : List Sale :=
  sales.map (fun s =>
    if s.id == saleId then { s with status := SaleStatus.fulfilled } else s)

/-- The durable state held by the external store: the products table and
the sales table (with nested items). -/
structure DbState where
  products : List Product
  sales : List Sale
deriving Repr, DecidableEq

/-- markAsFulfilled from the SalesTracker component: it issues a single
update on the sales table fixing status to 'fulfilled' for the given id;
the products table is untouched. -/
def markAsFulfilled (db : DbState) (saleId : String) : DbState :=
  { db with sales := fulfillSale db.sales saleId }

/-- The pending filter of the orders-to-fulfill list: sales whose status
is 'not_fulfilled'. -/
def pendingSales (sales : List Sale) : List Sale :=
  sales.filter (fun sale => sale.status == SaleStatus.not_fulfilled)

/-- C7: markAsFulfilled changes only the targeted sale's status field to
fulfilled: the products table is unchanged, the sales rows are the same
rows except that a row whose id matches has status fulfilled and every
other field as before, and afterwards no sale with the targeted id is
returned by the pending (not_fulfilled) filter. -/
theorem markAsFulfilled_frame (db : DbState) (saleId : String) :
    (markAsFulfilled db saleId).products = db.products ∧
    (markAsFulfilled db saleId).sales = db.sales.map (fun s =>
      if s.id = saleId then { s with status := SaleStatus.fulfilled } else s) ∧
    (∀ s ∈ db.sales, s.id ≠ saleId → s ∈ (markAsFulfilled db saleId).sales) ∧
    (∀ s ∈ db.sales, s.id = saleId →
      ({ s with status := SaleStatus.fulfilled } : Sale) ∈ (markAsFulfilled db saleId).sales) ∧
    (∀ s ∈ pendingSales (markAsFulfilled db saleId).sales, s.id ≠ saleId) := by
  refine ⟨rfl, ?_, ?_, ?_, ?_⟩
  · simp only [markAsFulfilled, fulfillSale]
    apply List.map_congr_left
    intro s _
    by_cases h : s.id = saleId <;> simp [h]
  · intro s hs hne
    simp only [markAsFulfilled, fulfillSale, List.mem_map]
    refine ⟨s, hs, ?_⟩
    simp [hne]
  · intro s hs heq
    simp only [markAsFulfilled, fulfillSale, List.mem_map]
    refine ⟨s, hs, ?_⟩
    simp [heq]
  · intro s hs
    simp only [pendingSales, List.mem_filter, markAsFulfilled, fulfillSale,
      List.mem_map] at hs
    rcases hs with ⟨⟨t, ht, hts⟩, hstat⟩
    intro hid
    by_cases h : t.id = saleId
    · rw [← hts] at hstat
      simp [h] at hstat
    · rw [← hts] at hid
      simp [h] at hid

/-- Witness for C7: marking the only pending sale of a two-sale table. -/
theorem markAsFulfilled_frame_witness :
    (markAsFulfilled
      { products := [{ id := "pA", name := "Keto Molde", price := 6900, cost := 4050, stock := 20 }],
        sales :=
          [{ id := "s1", customer_name := "Ana", status := SaleStatus.not_fulfilled,
             total_amount := 13800, sale_date := "2025-08-20", sale_items := [] },
           { id := "s2", customer_name := "Luis", status := SaleStatus.fulfilled,
             total_amount := 6900, sale_date := "2025-08-21", sale_items := [] }] }
      "s1").sales =
      [{ id := "s1", customer_name := "Ana", status := SaleStatus.fulfilled,
         total_amount := 13800, sale_date := "2025-08-20", sale_items := [] },
       { id := "s2", customer_name := "Luis", status := SaleStatus.fulfilled,
         total_amount := 6900, sale_date := "2025-08-21", sale_items := [] }] := by
  have h := markAsFulfilled_frame
    { products := [{ id := "pA", name := "Keto Molde", price := 6900, cost := 4050, stock := 20 }],
      sales :=
        [{ id := "s1", customer_name := "Ana", status := SaleStatus.not_fulfilled,
           total_amount := 13800, sale_date := "2025-08-20", sale_items := [] },
         { id := "s2", customer_name := "Luis", status := SaleStatus.fulfilled,
           total_amount := 6900, sale_date := "2025-08-21", sale_items := [] }] }
    "s1"
  rw [h.2.1]
  decide

/-- A durable-state operation of the system: recording a sale (the new row
is created with status not_fulfilled) or marking a sale fulfilled. -/
inductive SaleOp where
  | submit (id customer : String) (amount : Int) (date : String) (items : List SaleItem)
  | fulfill (saleId : String)

/-- Apply one operation to the sales table. -/
def applySaleOp (sales : List Sale) : SaleOp → List Sale
  | .submit id customer amount date items =>
      sales ++ [{ id := id, customer_name := customer,
                  status := SaleStatus.not_fulfilled, total_amount := amount,
                  sale_date := date, sale_items := items }]
  | .fulfill saleId => fulfillSale sales saleId

/-- Run a sequence of operations on the sales table. -/
def runSaleOps (sales : List Sale) (ops : List SaleOp) : List Sale :=
  ops.foldl applySaleOp sales

theorem applySaleOp_monotone (sales : List Sale) (op : SaleOp)
    (i : Nat) (hi : i < sales.length) :
    ∃ hj : i < (applySaleOp sales op).length,
      ((applySaleOp sales op).get ⟨i, hj⟩).id = (sales.get ⟨i, hi⟩).id ∧
      (((applySaleOp sales op).get ⟨i, hj⟩).status = (sales.get ⟨i, hi⟩).status ∨
        ((applySaleOp sales op).get ⟨i, hj⟩).status = SaleStatus.fulfilled) := by
  cases op with
  | submit id customer amount date items =>
    have hj : i < (applySaleOp sales (.submit id customer amount date items)).length := by
      simp only [applySaleOp, List.length_append]
      omega
    refine ⟨hj, ?_, Or.inl ?_⟩ <;>
      simp [applySaleOp, List.get_eq_getElem, List.getElem_append_left, hi]
  | fulfill saleId =>
    have hj : i < (applySaleOp sales (.fulfill saleId)).length := by
      simpa [applySaleOp, fulfillSale] using hi
    refine ⟨hj, ?_, ?_⟩
    · simp only [applySaleOp, fulfillSale, List.get_eq_getElem, List.getElem_map]
      by_cases h : (sales[i].id == saleId) = true <;> simp [h]
    · simp only [applySaleOp, fulfillSale, List.get_eq_getElem, List.getElem_map]
      by_cases h : (sales[i].id == saleId) = true <;> simp [h]

theorem runSaleOps_monotone :
    ∀ (ops : List SaleOp) (sales : List Sale) (i : Nat) (hi : i < sales.length),
      ∃ hj : i < (runSaleOps sales ops).length,
        ((runSaleOps sales ops).get ⟨i, hj⟩).id = (sales.get ⟨i, hi⟩).id ∧
        (((runSaleOps sales ops).get ⟨i, hj⟩).status = (sales.get ⟨i, hi⟩).status ∨
          ((runSaleOps sales ops).get ⟨i, hj⟩).status = SaleStatus.fulfilled) := by
  intro ops
  induction ops with
  | nil => intro sales i hi; exact ⟨hi, rfl, Or.inl rfl⟩
  | cons op ops ih =>
    intro sales i hi
    rcases applySaleOp_monotone sales op i hi with ⟨h1, hid1, hst1⟩
    rcases ih (applySaleOp sales op) i h1 with ⟨h2, hid2, hst2⟩
    refine ⟨h2, hid2.trans hid1, ?_⟩
    rcases hst2 with hst2 | hst2
    · rcases hst1 with hst1 | hst1
      · exact Or.inl (hst2.trans hst1)
      · exact Or.inr (hst2.trans hst1)
    · exact Or.inr hst2

/-- C8: across every sequence of sale submissions and fulfillment
markings, an existing sale keeps its identity and its status either stays
what it was or becomes fulfilled; in particular a fulfilled sale is never
taken back to not_fulfilled, so a status transitions at most once, from
not_fulfilled to fulfilled. -/
theorem status_never_reverts (sales : List Sale) (ops : List SaleOp)
    (i : Nat) (hi : i < sales.length) :
    ∃ hj : i < (runSaleOps sales ops).length,
      ((runSaleOps sales ops).get ⟨i, hj⟩).id = (sales.get ⟨i, hi⟩).id ∧
      (((runSaleOps sales ops).get ⟨i, hj⟩).status = (sales.get ⟨i, hi⟩).status ∨
        ((runSaleOps sales ops).get ⟨i, hj⟩).status = SaleStatus.fulfilled) ∧
      ((sales.get ⟨i, hi⟩).status = SaleStatus.fulfilled →
        ((runSaleOps sales ops).get ⟨i, hj⟩).status = SaleStatus.fulfilled) := by
  rcases runSaleOps_monotone ops sales i hi with ⟨hj, hid, hst⟩
  refine ⟨hj, hid, hst, ?_⟩
  intro hful
  rcases hst with hst | hst
  · exact hst.trans hful
  · exact hst

/-- Witness for C8: one fulfilled sale survives a submit then a fulfill of
another sale. -/
theorem status_never_reverts_witness :
    ((runSaleOps
        [{ id := "s1", customer_name := "Ana", status := SaleStatus.fulfilled,
           total_amount := 13800, sale_date := "2025-08-20", sale_items := [] }]
        [SaleOp.submit "s2" "Luis" 6900 "2025-08-21" [],
         SaleOp.fulfill "s2"]).get
      ⟨0, by decide⟩).status = SaleStatus.fulfilled := by
  have h := status_never_reverts
    [{ id := "s1", customer_name := "Ana", status := SaleStatus.fulfilled,
       total_amount := 13800, sale_date := "2025-08-20", sale_items := [] }]
    [SaleOp.submit "s2" "Luis" 6900 "2025-08-21" [], SaleOp.fulfill "s2"]
    0 (by decide)
  rcases h with ⟨hj, hid, hst, hrev⟩
  exact hrev (by decide)

/-- The store-side trigger public.update_stock_on_sale_item from the
migrations, together with the transaction semantics of an AFTER INSERT
trigger: the UPDATE subtracts NEW.quantity from the stock of the row whose
id is NEW.product_id, then the check reads that row's stock back and
raises 'Insufficient stock for product' when it is negative; a raised
exception aborts the whole insert, rolling the decrement back, which the
embedding renders as an error result carrying no new table state. -/
def update_stock_on_sale_item (products : List Product)
    (item : SaleItemInsert) : Except String (List Product) :=
  let updated := products.map (fun p =>
    if p.id == item.product_id then { p with stock := p.stock - item.quantity } else p)
  match updated.find? (fun p => p.id == item.product_id) with
  | some p =>
    if p.stock < 0 then Except.error "Insufficient stock for product"
    else Except.ok updated
  | none => Except.ok updated

theorem update_stock_find (products : List Product) (item : SaleItemInsert)
    (prod : Product)
    (hfind : products.find? (fun p => p.id == item.product_id) = some prod) :
    (products.map (fun p =>
        if p.id == item.product_id then { p with stock := p.stock - item.quantity } else p)).find?
      (fun p => p.id == item.product_id) =
    some { prod with stock := prod.stock - item.quantity } := by
  rw [List.find?_map]
  have hpred : ((fun (p : Product) => p.id == item.product_id) ∘ (fun p =>
      if p.id == item.product_id then { p with stock := p.stock - item.quantity } else p)) =
      (fun (p : Product) => p.id == item.product_id) := by
    funext p
    by_cases h : p.id = item.product_id <;> simp [h]
  rw [hpred, hfind]
  have hid : prod.id = item.product_id := by
    have := List.find?_some hfind
    simpa using this
  simp [hid]

/-- C4: for a line-item insert whose product_id resolves to a product, the
trigger decrements that product's stock by the inserted quantity; when the
quantity exceeds the current stock the whole insert is rejected with the
trigger's exception and no product row changes; consequently, over a
products table with distinct ids and non-negative stocks, a successful
insert leaves every stock non-negative. -/
theorem update_stock_on_sale_item_correct (products : List Product)
    (item : SaleItemInsert) (prod : Product)
    (hfind : products.find? (fun p => p.id == item.product_id) = some prod)
    (hnodup : (products.map Product.id).Nodup) :
    (prod.stock < item.quantity →
      update_stock_on_sale_item products item =
        Except.error "Insufficient stock for product") ∧
    (item.quantity ≤ prod.stock →
      update_stock_on_sale_item products item = Except.ok (products.map (fun p =>
        if p.id = item.product_id then { p with stock := p.stock - item.quantity } else p))) ∧
    ((∀ p ∈ products, 0 ≤ p.stock) →
      ∀ products2, update_stock_on_sale_item products item = Except.ok products2 →
        ∀ p ∈ products2, 0 ≤ p.stock) := by
  have hff := update_stock_find products item prod hfind
  have hid : prod.id = item.product_id := by
    have := List.find?_some hfind
    simpa using this
  have hmem : prod ∈ products := List.mem_of_find?_eq_some hfind
  refine ⟨?_, ?_, ?_⟩
  · intro hlt
    have hneg : prod.stock - item.quantity < 0 := by omega
    simp only [update_stock_on_sale_item, hff, hneg, if_true]
  · intro hle
    have hneg : ¬prod.stock - item.quantity < 0 := by omega
    simp only [update_stock_on_sale_item, hff, hneg, if_false]
    congr 1
    apply List.map_congr_left
    intro p _
    by_cases h : p.id = item.product_id <;> simp [h]
  · intro hpos products2 hok p hp
    by_cases hneg : prod.stock - item.quantity < 0
    · simp only [update_stock_on_sale_item, hff, hneg, if_true] at hok
      exact absurd hok (by simp)
    · simp only [update_stock_on_sale_item, hff, hneg, if_false, Except.ok.injEq] at hok
      rw [← hok] at hp
      simp only [List.mem_map] at hp
      rcases hp with ⟨x, hx, hxp⟩
      by_cases h : x.id = item.product_id
      · have hxprod : x = prod :=
          List.inj_on_of_nodup_map hnodup hx hmem (by rw [h, hid])
        rw [← hxp]
        simp only [h, beq_self_eq_true, if_true]
        simp only [hxprod]
        omega
      · rw [← hxp]
        have hb : (x.id == item.product_id) = false := by
          simpa using h
        simp only [hb, Bool.false_eq_true, if_false]
        exact hpos x hx

/-- Witness for C4: inserting 3 units against stock 20 succeeds and leaves
stock 17; inserting 25 units is rejected by the trigger. -/
theorem update_stock_on_sale_item_correct_witness :
    update_stock_on_sale_item
        [{ id := "pA", name := "Keto Molde", price := 6900, cost := 4050, stock := 20 }]
        { sale_id := "s1", product_id := "pA", quantity := 3,
          unit_price := 6900, subtotal := 20700 } =
      Except.ok [{ id := "pA", name := "Keto Molde", price := 6900, cost := 4050, stock := 17 }] ∧
    update_stock_on_sale_item
        [{ id := "pA", name := "Keto Molde", price := 6900, cost := 4050, stock := 20 }]
        { sale_id := "s1", product_id := "pA", quantity := 25,
          unit_price := 6900, subtotal := 172500 } =
      Except.error "Insufficient stock for product" := by
  have hok := update_stock_on_sale_item_correct
    [{ id := "pA", name := "Keto Molde", price := 6900, cost := 4050, stock := 20 }]
    { sale_id := "s1", product_id := "pA", quantity := 3,
      unit_price := 6900, subtotal := 20700 }
    { id := "pA", name := "Keto Molde", price := 6900, cost := 4050, stock := 20 }
    (by decide) (by decide)
  have herr := update_stock_on_sale_item_correct
    [{ id := "pA", name := "Keto Molde", price := 6900, cost := 4050, stock := 20 }]
    { sale_id := "s1", product_id := "pA", quantity := 25,
      unit_price := 6900, subtotal := 172500 }
    { id := "pA", name := "Keto Molde", price := 6900, cost := 4050, stock := 20 }
    (by decide) (by decide)
  constructor
  · rw [hok.2.1 (by decide)]
    rfl
  · exact herr.1 (by decide)

end KetoTracker
